import Mathlib

/-!
Shallow embedding of the conversation/retrieval orchestration service in
`src/app.py` and `src/backend.py` (a Flask retrieval-augmented chatbot backend
over Azure Cognitive Search, Azure OpenAI and Cosmos DB).

Modelling conventions:
* Python strings are Lean `String`s; where a proof needs character-level
  reasoning it goes through `String.data : List Char`.
* The Cosmos DB container is a `Store`, a list of documents.  A document is a
  `CosmosDoc` whose optional fields model the dynamic shape of the JSON items:
  `none` models an absent field.  `container.read_item` is lookup by `id`,
  `container.upsert_item` replaces the document with the same `id` (Cosmos ids
  are unique per container) or inserts, and `container.query_items` with the
  `SELECT … WHERE c.user_id=@u AND c.thread_id=@t ORDER BY c.timestamp DESC`
  query of `get_conversation_history` filters on the two fields being present
  and equal and sorts by descending timestamp (ISO-8601 strings compare
  lexicographically).
* External managed services (the embedding endpoint, the vector index, the
  chat-completion endpoint) are parameters returning `Except String _`: an
  upstream failure is an uncaught Python exception, modelled as `.error`.
* Python dicts keyed by strings (`item['history']`) are association lists that
  preserve insertion order, as CPython dicts do.
* `datetime.utcnow().isoformat()` is passed in as the `now` argument.
* A Python statement that raises an uncaught exception (`item['history']` on a
  record without that key) makes the modelled function return `none`/`.error`.
-/

set_option maxRecDepth 16384

namespace AzureGpt

/-- Python `sep.join(xs)`: empty string for `[]`, otherwise the elements
interleaved with `sep`. -/
def pyJoin (sep : String) : List String → String
  | [] => ""
  | [x] => x
  | x :: y :: ys => x ++ sep ++ pyJoin sep (y :: ys)

/-- `pyJoin` at the level of character lists (used to reason about parsing). -/
def joinSepL (sep : List Char) : List (List Char) → List Char
  | [] => []
  | [x] => x
  | x :: y :: ys => x ++ sep ++ joinSepL sep (y :: ys)

/-- The whitespace class of Python `str.split()` with no argument. -/
def pyIsSpace (c : Char) : Bool :=
  c == ' ' || c == '\t' || c == '\n' || c == '\x0d' || c == '\x0b' || c == '\x0c'

/-- Helper for `pySplitWs`: accumulate the current word (reversed). -/
def wsSplitAux : List Char → List Char → List (List Char)
  | [], acc => if acc.isEmpty then [] else [acc.reverse]
  | c :: cs, acc =>
    if pyIsSpace c then
      if acc.isEmpty then wsSplitAux cs [] else acc.reverse :: wsSplitAux cs []
    else wsSplitAux cs (c :: acc)

/-- Python `s.split()` (no argument): maximal runs of non-whitespace, leading,
trailing and repeated whitespace discarded. -/
def pySplitWs (s : String) : List String :=
  (wsSplitAux s.data []).map String.mk

/-- Python `s.lower()` (the page labels are ASCII, where the two agree). -/
def pyLower (s : String) : String := ⟨s.data.map Char.toLower⟩

/-- One `{req, res}` entry of a thread's `chats` list (src/app.py 154-157). -/
structure ChatTurn where
  req : String
  res : String
deriving DecidableEq, Repr

/-- One value of the per-user `history` map: `{heading, chats}`
(src/app.py 148-151). -/
structure ThreadData where
  heading : String
  chats : List ChatTurn
deriving DecidableEq, Repr

/-- A Cosmos DB document.  `save_conversation` writes `{id, history,
timestamp}`; the flat query of `get_conversation_history` reads `user_id`,
`thread_id`, `user_message`, `bot_response`, `timestamp`.  A field holding
`none` is absent from the JSON item. -/
structure CosmosDoc where
  id : String
  user_id : Option String := none
  thread_id : Option String := none
  user_message : Option String := none
  bot_response : Option String := none
  history : Option (List (String × ThreadData)) := none
  timestamp : Option String := none
deriving DecidableEq, Repr

/-- The Cosmos DB container's contents. -/
abbrev Store := List CosmosDoc

/-- `container.read_item(item=docId, partition_key=docId)`: the document with
that id, if present (Cosmos ids are unique per container). -/
def read_item : Store → String → Option CosmosDoc
  | [], _ => none
  | d :: ds, docId => if d.id == docId then some d else read_item ds docId

/-- `container.upsert_item(doc)`: replace the document with the same id
(unique per container), or insert at the end. -/
def upsert_item : Store → CosmosDoc → Store
  | [], doc => [doc]
  | d :: ds, doc => if d.id == doc.id then doc :: ds else d :: upsert_item ds doc

/-- Python `dict[k]` on the insertion-ordered `history` map (keys are unique,
as in a Python dict). -/
def dictLookup : List (String × ThreadData) → String → Option ThreadData
  | [], _ => none
  | p :: ps, k => if p.1 == k then some p.2 else dictLookup ps k

/-- Python `k in dict`. -/
def dictMem (m : List (String × ThreadData)) (k : String) : Bool :=
  (dictLookup m k).isSome

/-- In-place mutation of the entry at key `k` (Python
`dict[k]['chats'].append(...)` mutates the stored value, keeping the key's
insertion position). -/
def dictUpdate : List (String × ThreadData) → String → (ThreadData → ThreadData) →
    List (String × ThreadData)
  | [], _, _ => []
  | p :: ps, k, f => if p.1 == k then (p.1, f p.2) :: ps else p :: dictUpdate ps k f

/-- `save_conversation` (src/app.py 135-163): fetch the per-user record (an
absent record starts as `{'id': user_id, 'history': {}}`), create the thread
entry with `heading = user_message` if the thread key is new, append the
`{req, res}` turn, refresh the record timestamp, upsert the record back.
Returns `none` when the fetched record has no `history` field: the Python code
then raises an uncaught `KeyError` at `item['history']` and nothing is
written. -/
def save_conversation (store : Store) (user_id thread_id user_message bot_response now : String) :
    Option Store :=
  let item : CosmosDoc :=
    match read_item store user_id with
    | some it => it
    | none => { id := user_id, history := some [] }
  match item.history with
  | none => none
  | some hist =>
    let hist1 := if dictMem hist thread_id then hist
                 else hist ++ [(thread_id, ⟨user_message, []⟩)]
    let hist2 := dictUpdate hist1 thread_id
                   (fun td => { td with chats := td.chats ++ [⟨user_message, bot_response⟩] })
    some (upsert_item store { item with history := some hist2, timestamp := some now })

/-- Strict lexicographic order on character lists by code point (the order of
Cosmos DB string comparison on the ASCII ISO-8601 timestamps). -/
def charsLt : List Char → List Char → Bool
  | [], [] => false
  | [], _ :: _ => true
  | _ :: _, [] => false
  | a :: as, b :: bs =>
    if a.toNat < b.toNat then true
    else if b.toNat < a.toNat then false
    else charsLt as bs
/-- True when `a` is a strictly more recent timestamp than `b` (ISO-8601
strings compare lexicographically; a document without the field sorts last). -/
def tsMoreRecent (a b : Option String) : Bool :=
  match a, b with
  | some x, some y => charsLt y.data x.data
  | some _, none => true
  | none, _ => false

/-- Insert into a list already sorted by descending timestamp. -/
def insertByTsDesc (d : CosmosDoc) : List CosmosDoc → List CosmosDoc
  | [] => [d]
  | x :: xs => if tsMoreRecent d.timestamp x.timestamp then d :: x :: xs
               else x :: insertByTsDesc d xs

/-- `ORDER BY c.timestamp DESC`. -/
def sortByTsDesc (l : List CosmosDoc) : List CosmosDoc :=
  l.foldr insertByTsDesc []

/-- `get_conversation_history` (src/app.py 69-76): the flat query
`SELECT * FROM c WHERE c.user_id=@user_id AND c.thread_id=@thread_id
ORDER BY c.timestamp DESC`.  A document matches only when it carries both
fields with the given values. -/
def get_conversation_history (store : Store) (user_id thread_id : String) : List CosmosDoc :=
  sortByTsDesc (store.filter
    (fun d => d.user_id == some user_id && d.thread_id == some thread_id))

/-- Python `conversation_history[-5:]`: the last five elements (all of them
when there are fewer). -/
def pyTakeLastFive (l : List CosmosDoc) : List CosmosDoc :=
  l.drop (l.length - 5)

/-- `format_memory` (src/app.py 81-84): one `"User: …\nBot: …"` line per item
of `conversation_history[-5:]`, joined by newlines.  Returns `none` when an
item lacks the `user_message` or `bot_response` key (Python raises `KeyError`
inside the list comprehension). -/
def format_memory (conversation_history : List CosmosDoc) : Option String :=
  ((pyTakeLastFive conversation_history).mapM (fun (item : CosmosDoc) =>
      match item.user_message, item.bot_response with
      | some um, some br => some ("User: " ++ um ++ "\nBot: " ++ br)
      | _, _ => none)).map (pyJoin "\n")

/-- The fixed system-persona instructions of `get_llm_response`
(src/app.py 94-110), verbatim.  Deployment configuration data: the claims
depend only on this being one fixed constant. -/
def system_prompt : String := "
         You are the most intelligent Vintage Motorcycle Repair Assistant, you will help of any concern about motorbike repairing, when user comes  to you, you will start by welcoming users and asking for details like the brand, model, year, and the specific mechanical problem they are facing (e.g., engine, transmission, ignition) one by one. in a short question remember to ask one question at a time. you will ask minimum 2 and maximum 3 question per user. The length of your question is very short likely around minimum 20 words or maximum 50 words for each question.
          do not mention any bike name by yourself, every information you will ask with user

         Probe further to clarify the issue and any steps they have already taken. Offer step-by-step guidance based on original shop manuals, always prioritizing safety and clarity, especially for beginners. Include clickable page references to the manuals to allow users to consult the original information. Depending on the situation, offer schematics or drawings to help users visualize repairs. If they upload pictures of parts, assist in finding affordable replacement options online. Encourage professional help when the issue is too complex, i you have no answer regarding to user problem, providing the support contact (support@VintageMotorcycleRepairAssistant.com) if needed.

         Throughout the interaction, adapt your advice to the user’s skill level, ensuring instructions are both clear and helpful, while maintaining a friendly, empathetic tone.

         REMEMBER TO NOT GIVE ANY REFERENCE FROM THE RAG OR THE PDF WITHOUT TAKING THE USER'S DETAILS..
         make answers more formatted and clear be professional with any question and answer, before answering, ask user in brief about his actual problem one by one before giving any solution you have to ask multiple questions about the problem 'one by one' before answering him,


         remember you will get the pdf for reference, but you have to use them or making decisions and giving the accurate answers to user,

         Just introduce yourself for one time in the first question. do not introduce yourself again and again, until user asks

         "

/-- One `{role, content}` chat message. -/
structure Message where
  role : String
  content : String
deriving DecidableEq, Repr

/-- The message sequence `get_llm_response` (src/app.py 87-116) sends to the
completion endpoint: the fixed system message; the formatted memory as a user
message when it is non-empty (Python `if memory:` is string truthiness); the
current question with the formatted search results as the final user message.
`none` when `format_memory` raises (see `format_memory`). -/
def get_llm_response_messages (store : Store)
    (user_input search_content user_id thread_id : String) : Option (List Message) :=
  let conversation_history := get_conversation_history store user_id thread_id
  (format_memory conversation_history).map (fun memory =>
    ([⟨"system", system_prompt⟩] ++ (if memory = "" then [] else [⟨"user", memory⟩]))
      ++ [⟨"user", user_input ++ "\n\nSearch results:\n" ++ search_content⟩])

/-- One hit as the vector index returns it: the two selected fields
`page_number` and `page_content`, and `@search.score`. -/
structure RawHit where
  page_number : String
  page_content : String
  score : Float

/-- One element of the `search_results` list built by `search_with_vector`
(src/app.py 178-189). -/
structure SearchHit where
  doc_ref : String
  page_number : String
  page_content : String
  score : Float
  image_path : String

/-- `search_with_vector` (src/app.py 168-191).  `embed` is the external
embedding endpoint (`get_embeddings_vector`, src/backend.py 127-133) and
`index_search` the external index queried through the `VectorizedQuery` with
`k_nearest_neighbors = 3` — the literal `3` below is the only `k` the code ever
passes.  Hits are enumerated from 1 in the order the index returned them;
`image_path` is `"output_images/" + str(page_number).lower() + ".jpg"`
(`page_number` is a string field, so `str` is the identity). -/
def search_with_vector (embed : String → Except String (List Float))
    (index_search : List Float → Nat → Except String (List RawHit))
    (query : String) : Except String (List SearchHit) :=
  match embed query with
  | Except.error e => Except.error e
  | Except.ok embedding =>
    match index_search embedding 3 with
    | Except.error e => Except.error e
    | Except.ok results =>
      Except.ok (results.enum.map (fun p =>
        { doc_ref := "[doc" ++ toString (p.1 + 1) ++ "]"
          page_number := p.2.page_number
          page_content := p.2.page_content
          score := p.2.score
          image_path := "output_images/" ++ pyLower p.2.page_number ++ ".jpg" }))

/-- The f-string `f"{res['doc_ref']} page {res['page_number']}: {res['page_content']}"`
of `format_search_content` (src/app.py 196). -/
def hitLine (r : SearchHit) : String :=
  r.doc_ref ++ " page " ++ r.page_number ++ ": " ++ r.page_content

/-- `format_search_content` (src/app.py 194-197): one
`"<doc_ref> page <page_number>: <page_content>"` line per hit, joined by
newlines. -/
def format_search_content (search_results : List SearchHit) : String :=
  pyJoin "\n" (search_results.map hitLine)

/-- The `images` value of the `/ask` response (src/app.py 222-230): the hits'
image paths when the response has more than 160 words (Python
`len(response.split())`), the empty list otherwise. -/
def ask_images (response : String) (search_results : List SearchHit) : List String :=
  let word_count := (pySplitWs response).length
  if word_count > 160 then search_results.map (fun r => r.image_path) else []

/-- `get_llm_response` (src/app.py 87-130) as a result: build the messages and
call the external completion endpoint; a `KeyError` while formatting memory is
an uncaught exception. -/
def get_llm_response_result (complete : List Message → Except String String)
    (store : Store) (user_input search_content user_id thread_id : String) :
    Except String String :=
  match get_llm_response_messages store user_input search_content user_id thread_id with
  | none => Except.error "KeyError"
  | some msgs => complete msgs

/-- The body of the `/ask` handler (src/app.py 203-230) once the three request
fields are in hand: vector search, prompt formatting, completion, persistence,
then the `{response, images}` payload.  The pair's second component is the
store after the request: every failing step leaves it untouched, because the
only write (`save_conversation`) comes after the completion succeeded. -/
def ask_flow (embed : String → Except String (List Float))
    (index_search : List Float → Nat → Except String (List RawHit))
    (complete : List Message → Except String String)
    (store : Store) (user_id thread_id user_input now : String) :
    Except String (String × List String) × Store :=
  match search_with_vector embed index_search user_input with
  | Except.error e => (Except.error e, store)
  | Except.ok search_results =>
    let formatted_content := format_search_content search_results
    match get_llm_response_result complete store user_input formatted_content user_id thread_id with
    | Except.error e => (Except.error e, store)
    | Except.ok response =>
      match save_conversation store user_id thread_id user_input response now with
      | none => (Except.error "KeyError", store)
      | some st => (Except.ok (response, ask_images response search_results), st)

/-- The JSON body of a `POST /ask` request: `data.get(...)` returns `None` for
an absent field. -/
structure AskBody where
  user_id : Option String := none
  thread : Option String := none
  question : Option String := none

/-- The `/ask` route function `ask` (src/app.py 203-230) at the HTTP boundary:
it reads the three fields with `.get` and proceeds straight into the
orchestration with the raw (possibly `None`) values — the source has no
validation branch and no 400 response.  The orchestration is the `pipeline`
parameter, applied to exactly those values; `Except.ok` is Flask's 200 from
`jsonify`, `Except.error` is the 500 Flask sends for an uncaught exception
(such as the embedding client rejecting a `None` question). -/
def ask_endpoint
    (pipeline : Option String → Option String → Option String → Store →
      Except String (String × List String) × Store)
    (store : Store) (body : AskBody) : Nat × Store :=
  let user_id := body.user_id
  let thread_id := body.thread
  let user_input := body.question
  match pipeline user_id thread_id user_input store with
  | (Except.ok _, st) => (200, st)
  | (Except.error _, st) => (500, st)

/-! ### A parser for `format_search_content` output

Modelled from the spec: the claim about `formatSearchContent` asks that its
output, "parsed back (splitting on newlines and on the
`<docRef> page <pageNumber>: <pageContent>` pattern)", recovers the input
triples.  The source has no such parser, so the following definitions follow
the spec's words: split the document on newlines, then split each line at the
first `" page "` and the first `": "`. -/

/-- `dropPrefixQ sep s`: `some rest` when `s = sep ++ rest`, else `none`. -/
def dropPrefixQ : List Char → List Char → Option (List Char)
  | [], s => some s
  | _ :: _, [] => none
  | a :: as, b :: bs => if a = b then dropPrefixQ as bs else none

/-- Split at the first occurrence of `sep`: `some (before, after)`, or `none`
when `sep` does not occur. -/
def splitFirst (sep : List Char) : List Char → Option (List Char × List Char)
  | [] => (dropPrefixQ sep []).map (fun r => ([], r))
  | c :: cs =>
    match dropPrefixQ sep (c :: cs) with
    | some rest => some ([], rest)
    | none =>
      match splitFirst sep cs with
      | some (a, b) => some (c :: a, b)
      | none => none

/-- Split a character list on `'\n'` (Python `s.split("\n")` semantics: one
more part than separators, parts may be empty). -/
def splitLines : List Char → List (List Char)
  | [] => [[]]
  | c :: cs =>
    match splitLines cs with
    | [] => [[]]
    | r :: rs => if c = '\n' then [] :: r :: rs else (c :: r) :: rs

/-- Parse one `"<docRef> page <pageNumber>: <pageContent>"` line back into its
triple: `docRef` is everything before the first `" page "`, `pageNumber`
everything from there to the first `": "`, `pageContent` the rest. -/
def parseLine (l : List Char) : Option (String × String × String) :=
  match splitFirst (" page ".data) l with
  | none => none
  | some (dr, rest1) =>
    match splitFirst (": ".data) rest1 with
    | none => none
    | some (pn, pc) => some (⟨dr⟩, ⟨pn⟩, ⟨pc⟩)

/-- Parse a whole `format_search_content` document: the empty document holds
no lines; otherwise every newline-separated line must match the pattern. -/
def parse_search_content (s : String) : Option (List (String × String × String)) :=
  if s = "" then some [] else (splitLines s.data).mapM parseLine

/-- The triple of the fields `format_search_content` prints for a hit. -/
def hitTriple (h : SearchHit) : String × String × String :=
  (h.doc_ref, h.page_number, h.page_content)

/-- The thread entry a store holds for `(u, t)` under the nested shape:
the record with id `u`, its `history` map at key `t`. -/
def threadOf (store : Store) (u t : String) : Option ThreadData :=
  match read_item store u with
  | none => none
  | some d =>
    match d.history with
    | none => none
    | some h => dictLookup h t

/-! ### Concrete inputs used by the closed theorems below -/

/-- Six flat-shape history documents for one user and thread, timestamps
strictly increasing with the index (so `q6`/`r6` is the most recent turn). -/
def store6 : Store :=
  [{ id := "a1", user_id := some "u1", thread_id := some "t1",
     user_message := some "q1", bot_response := some "r1", timestamp := some "2024-01-01" },
   { id := "a2", user_id := some "u1", thread_id := some "t1",
     user_message := some "q2", bot_response := some "r2", timestamp := some "2024-01-02" },
   { id := "a3", user_id := some "u1", thread_id := some "t1",
     user_message := some "q3", bot_response := some "r3", timestamp := some "2024-01-03" },
   { id := "a4", user_id := some "u1", thread_id := some "t1",
     user_message := some "q4", bot_response := some "r4", timestamp := some "2024-01-04" },
   { id := "a5", user_id := some "u1", thread_id := some "t1",
     user_message := some "q5", bot_response := some "r5", timestamp := some "2024-01-05" },
   { id := "a6", user_id := some "u1", thread_id := some "t1",
     user_message := some "q6", bot_response := some "r6", timestamp := some "2024-01-06" }]

/-- An embedding endpoint that answers every query with a fixed vector. -/
def embedOk : String → Except String (List Float) := fun _ => Except.ok []

/-- An index response of one hit. -/
def idxOneHit : List Float → Nat → Except String (List RawHit) :=
  fun _ _ => Except.ok [{ page_number := "Page_1", page_content := "alpha", score := 0.0 }]

/-- Two raw index hits. -/
def twoRaws : List RawHit :=
  [{ page_number := "Page_1", page_content := "alpha", score := 0.0 },
   { page_number := "Page_2", page_content := "beta", score := 0.0 }]

/-- An index response of two hits. -/
def idxTwoHits : List Float → Nat → Except String (List RawHit) :=
  fun _ _ => Except.ok twoRaws

/-- Two well-formed hits (labels without spaces, page labels without colons,
contents without newlines), as the live system produces them. -/
def cleanHits : List SearchHit :=
  [{ doc_ref := "[doc1]", page_number := "Page_1", page_content := "alpha",
     score := 0.0, image_path := "output_images/page_1.jpg" },
   { doc_ref := "[doc2]", page_number := "Page_2", page_content := "beta",
     score := 0.0, image_path := "output_images/page_2.jpg" }]

/-- A 161-word response (strictly above the image threshold). -/
def longResponse : String := pyJoin " " (List.replicate 161 "a")

/-- An embedding endpoint that fails (upstream error). -/
def embedFail : String → Except String (List Float) := fun _ => Except.error "timeout"

/-- A completion endpoint that always answers. -/
def completeOk : List Message → Except String String := fun _ => Except.ok "fine"

/-- A nested-shape `history` map with two threads. -/
def nestedHist : List (String × ThreadData) :=
  [("t1", { heading := "first q", chats := [{ req := "first q", res := "first a" }] }),
   ("t2", { heading := "other q", chats := [{ req := "other q", res := "other a" }] })]

/-- A nested-shape record for user `u1` with the two threads of `nestedHist`. -/
def nestedDoc : CosmosDoc :=
  { id := "u1", history := some nestedHist, timestamp := some "2024-01-01" }

/-- A store holding one nested-shape record for user `u1` with two threads. -/
def storeNested : Store := [nestedDoc]

/-- `storeNested` after `save_conversation storeNested "u1" "t1" "new q" "new a"
"2024-02-02"`: the `t1` thread gained one turn, its heading and the `t2`
thread are untouched, the record timestamp was refreshed. -/
def storeNestedSaved : Store :=
  [{ id := "u1",
     history := some
       [("t1", { heading := "first q",
                 chats := [{ req := "first q", res := "first a" },
                           { req := "new q", res := "new a" }] }),
        ("t2", { heading := "other q", chats := [{ req := "other q", res := "other a" }] })],
     timestamp := some "2024-02-02" }]

/-! ### Theorems -/

/-- C1 (code_bug): `save_conversation` followed by `get_conversation_history`
for the same user and thread does NOT return the just-saved turn.  Starting
from the empty store, the save succeeds and stores the turn (first component:
the nested record's thread entry holds it), yet the history query returns the
empty list (second component), because the saved record `{id, history,
timestamp}` carries no `user_id`/`thread_id` fields for the flat
`SELECT … WHERE c.user_id=@user_id AND c.thread_id=@thread_id` query to
match. -/
theorem save_then_get_misses_turn :
    (save_conversation [] "u1" "t1" "hello" "hi" "2024-01-01T00:00:00").map
        (fun st => (threadOf st "u1" "t1", get_conversation_history st "u1" "t1"))
      = some (some ⟨"hello", [⟨"hello", "hi"⟩]⟩, []) := by decide

/-- C4 (code_bug): applied to the six-turn history that
`get_conversation_history` returns most-recent-first (`q6` newest … `q1`
oldest), `format_memory` keeps `history[-5:]`, i.e. the five OLDEST turns
`q5 … q1`, and omits the most recent turn `q6`: the transcript is not the one
over the five most recent turns `q6 … q2` the claim describes. -/
theorem format_memory_keeps_oldest_five :
    format_memory (get_conversation_history store6 "u1" "t1")
      = some ("User: q5\nBot: r5\nUser: q4\nBot: r4\nUser: q3\nBot: r3\n" ++
              "User: q2\nBot: r2\nUser: q1\nBot: r1") ∧
    format_memory (get_conversation_history store6 "u1" "t1")
      ≠ some ("User: q6\nBot: r6\nUser: q5\nBot: r5\nUser: q4\nBot: r4\n" ++
              "User: q3\nBot: r3\nUser: q2\nBot: r2") := by decide

/-- C6 (confirmed): the `/ask` response's `images` list is empty when the
generated response has at most 160 words (Python `len(response.split())`),
and holds exactly one image path per search hit, in hit order, when the word
count exceeds 160. -/
theorem ask_images_threshold (response : String) (search_results : List SearchHit) :
    ((pySplitWs response).length ≤ 160 → ask_images response search_results = []) ∧
    (160 < (pySplitWs response).length →
      ask_images response search_results = search_results.map (fun r => r.image_path)) := by
  refine ⟨fun h => ?_, fun h => ?_⟩
  · unfold ask_images
    rw [if_neg (by omega)]
  · unfold ask_images
    rw [if_pos (by omega)]

/-- C6 witness: a 2-word response yields no images; a 161-word response yields
the hits' image paths in order. -/
theorem ask_images_threshold_witness :
    ask_images "short answer" cleanHits = [] ∧
    ask_images longResponse cleanHits = cleanHits.map (fun r => r.image_path) :=
  ⟨(ask_images_threshold "short answer" cleanHits).1 (by decide),
   (ask_images_threshold longResponse cleanHits).2 (by decide)⟩

/-- C8 (corrected, amended claim): the `ask` handler performs no validation at
all, so it never returns a 400 — for every request body (whatever fields are
missing) it proceeds into the orchestration and answers 200 on success or 500
on an uncaught failure. -/
theorem ask_endpoint_never_400
    (pipeline : Option String → Option String → Option String → Store →
      Except String (String × List String) × Store)
    (store : Store) (body : AskBody) :
    (ask_endpoint pipeline store body).1 ≠ 400 := by
  unfold ask_endpoint
  rcases h : pipeline body.user_id body.thread body.question store with ⟨r, st⟩
  rcases r with e | v <;> simp [h]

/-- C8 counterexample: a body whose `question` field is missing is not
rejected with a 400; the handler runs the orchestration on the raw values and
the resulting upstream failure (the embedding client receiving `None`)
surfaces as a 500. -/
theorem ask_missing_question_returns_500 :
    ask_endpoint (fun _ _ _ s => (Except.error "TypeError", s)) []
        { user_id := some "u1" } = (500, []) ∧ (500 : Nat) ≠ 400 := by decide

/-- C5 (confirmed): whenever the memory formatting succeeds, the message
sequence `get_llm_response` sends is exactly one leading system message with
the fixed persona instructions, then — only when the formatted memory is
non-empty — one user message carrying that memory transcript, then exactly
one trailing user message equal to the current question followed by
`"\n\nSearch results:\n"` and the formatted hits (each rendered by
`format_search_content` as `"<doc_ref> page <page_number>: <page_content>"`
joined by newlines, in search-result order). -/
theorem get_llm_response_messages_shape (store : Store) (hits : List SearchHit)
    (user_input user_id thread_id : String) (mem : String)
    (h : format_memory (get_conversation_history store user_id thread_id) = some mem) :
    get_llm_response_messages store user_input (format_search_content hits) user_id thread_id
      = some ([⟨"system", system_prompt⟩]
          ++ (if mem = "" then [] else [⟨"user", mem⟩])
          ++ [⟨"user", user_input ++ "\n\nSearch results:\n" ++ format_search_content hits⟩]) := by
  simp only [get_llm_response_messages, h, Option.map_some']

/-- C5 witness: with an empty store the memory is empty and the messages are
the system message and the single trailing user message. -/
theorem get_llm_response_messages_shape_witness :
    get_llm_response_messages [] "why" (format_search_content cleanHits) "u1" "t1"
      = some ([⟨"system", system_prompt⟩]
          ++ [⟨"user", "why" ++ "\n\nSearch results:\n" ++ format_search_content cleanHits⟩]) := by
  have h := get_llm_response_messages_shape [] cleanHits "why" "u1" "t1" "" (by decide)
  simpa using h

/-- C2 (corrected, amended claim): `search_with_vector` asks the index for
exactly 3 nearest neighbours; when the embedding succeeds and the index
honours its contract (at most 3 hits for k = 3), the output has one hit per
index hit (hence at most 3), keeps the index's order without re-sorting (the
i-th output carries the i-th raw hit's fields unchanged), and labels the hit
at 0-based position i with the bracketed 1-based ordinal `"[doc<i+1>]"`. -/
theorem search_with_vector_spec
    (embed : String → Except String (List Float))
    (index_search : List Float → Nat → Except String (List RawHit))
    (query : String) (emb : List Float) (raws : List RawHit)
    (he : embed query = Except.ok emb)
    (hr : index_search emb 3 = Except.ok raws)
    (hk : raws.length ≤ 3) :
    ∃ hits : List SearchHit, search_with_vector embed index_search query = Except.ok hits ∧
      hits.length = raws.length ∧ hits.length ≤ 3 ∧
      ∀ (i : Nat) (r : RawHit), raws[i]? = some r →
        hits[i]? = some ({ doc_ref := "[doc" ++ toString (i + 1) ++ "]",
                           page_number := r.page_number,
                           page_content := r.page_content,
                           score := r.score,
                           image_path := "output_images/" ++ pyLower r.page_number ++ ".jpg" } : SearchHit) := by
  unfold search_with_vector
  rw [he]
  dsimp only
  rw [hr]
  dsimp only
  refine ⟨_, rfl, ?_, ?_, ?_⟩
  · simp [List.enum_length]
  · simpa [List.enum_length] using hk
  · intro i r hir
    simp [List.getElem?_map, List.getElem?_enum, hir]

/-- C2 witness: a two-hit index response yields two labelled hits in index
order. -/
theorem search_with_vector_spec_witness :
    ∃ hits : List SearchHit, search_with_vector embedOk idxTwoHits "q" = Except.ok hits ∧
      hits.length = twoRaws.length ∧ hits.length ≤ 3 ∧
      ∀ (i : Nat) (r : RawHit), twoRaws[i]? = some r →
        hits[i]? = some ({ doc_ref := "[doc" ++ toString (i + 1) ++ "]",
                           page_number := r.page_number,
                           page_content := r.page_content,
                           score := r.score,
                           image_path := "output_images/" ++ pyLower r.page_number ++ ".jpg" } : SearchHit) :=
  search_with_vector_spec embedOk idxTwoHits "q" [] twoRaws rfl rfl (by decide)

/-- C2 counterexample: the label the code attaches to the first hit is the
bracketed `"[doc1]"`, not the bare `"doc1"` form the claim states. -/
theorem search_label_has_brackets :
    (match search_with_vector embedOk idxOneHit "q" with
     | Except.ok hits => hits.map (fun h => h.doc_ref)
     | Except.error _ => []) = ["[doc1]"] ∧ ("[doc1]" : String) ≠ "doc1" := by
  exact ⟨rfl, by decide⟩

/-- C9 (confirmed): when any step of `/ask` before persistence fails — the
vector search (embedding or index), the memory formatting inside
`get_llm_response`, or the completion call — the request ends in an error and
the conversation store is unchanged; `save_conversation` runs only after the
completion response has been obtained, so no partial turn is ever persisted
on failure. -/
theorem ask_flow_no_partial_persistence
    (embed : String → Except String (List Float))
    (index_search : List Float → Nat → Except String (List RawHit))
    (complete : List Message → Except String String)
    (store : Store) (u t q now : String)
    (h : (ask_flow embed index_search complete store u t q now).1.isOk = false) :
    (ask_flow embed index_search complete store u t q now).2 = store := by
  unfold ask_flow at h ⊢
  cases hs : search_with_vector embed index_search q with
  | error e => simp [hs]
  | ok hits =>
    cases hc : get_llm_response_result complete store q (format_search_content hits) u t with
    | error e => simp [hs, hc]
    | ok resp =>
      cases hsv : save_conversation store u t q resp now with
      | none => simp [hs, hc, hsv]
      | some st => simp [hs, hc, hsv, Except.isOk, Except.toBool] at h

/-- C9 witness: a failing embedding call leaves the store untouched. -/
theorem ask_flow_no_partial_persistence_witness :
    (ask_flow embedFail idxOneHit completeOk storeNested "u1" "t1" "q" "2024").2
      = storeNested :=
  ask_flow_no_partial_persistence embedFail idxOneHit completeOk storeNested
    "u1" "t1" "q" "2024" (by decide)

/-- Helper: after `upsert_item store d`, reading `d.id` yields `d`. -/
theorem read_item_upsert (store : Store) (d : CosmosDoc) :
    read_item (upsert_item store d) d.id = some d := by
  induction store with
  | nil => simp [upsert_item, read_item]
  | cons x xs ih =>
    cases hx : (x.id == d.id) with
    | true => simp [upsert_item, read_item, hx]
    | false => simp [upsert_item, read_item, hx, ih]

/-- Helper: documents whose id differs from the upserted one survive an
upsert unchanged (as members). -/
theorem mem_upsert_of_ne (store : Store) (d e : CosmosDoc)
    (he : e ∈ store) (hne : e.id ≠ d.id) : e ∈ upsert_item store d := by
  induction store with
  | nil => cases he
  | cons x xs ih =>
    rcases List.mem_cons.mp he with rfl | he2
    · have hx : (e.id == d.id) = false := beq_eq_false_iff_ne.mpr hne
      simp [upsert_item, hx]
    · cases hx : (x.id == d.id) with
      | true => simp [upsert_item, hx, List.mem_cons, Or.inr he2]
      | false => simp [upsert_item, hx, List.mem_cons, Or.inr (ih he2)]

/-- Helper: `dictLookup` after `dictUpdate` at the same key applies the
update. -/
theorem dictLookup_update_self (m : List (String × ThreadData)) (k : String)
    (f : ThreadData → ThreadData) :
    dictLookup (dictUpdate m k f) k = (dictLookup m k).map f := by
  induction m with
  | nil => rfl
  | cons p ps ih =>
    cases h1 : (p.1 == k) with
    | true => simp [dictUpdate, dictLookup, h1]
    | false => simp [dictUpdate, dictLookup, h1, ih]

/-- Helper: `dictUpdate` at key `k` does not change lookups at other keys. -/
theorem dictLookup_update_ne (m : List (String × ThreadData)) (k k2 : String)
    (f : ThreadData → ThreadData) (hne : k2 ≠ k) :
    dictLookup (dictUpdate m k f) k2 = dictLookup m k2 := by
  induction m with
  | nil => rfl
  | cons p ps ih =>
    by_cases hp : p.1 = k
    · have h1 : (p.1 == k) = true := beq_iff_eq.mpr hp
      have h2 : (p.1 == k2) = false := by
        rw [hp]
        exact beq_eq_false_iff_ne.mpr (fun h => hne h.symm)
      simp [dictUpdate, dictLookup, h1, h2]
    · have h1 : (p.1 == k) = false := beq_eq_false_iff_ne.mpr hp
      cases h2 : (p.1 == k2) with
      | true => simp [dictUpdate, dictLookup, h1, h2]
      | false => simp [dictUpdate, dictLookup, h1, h2, ih]

/-- Helper: appending a fresh key at the end makes it found when it was
absent. -/
theorem dictLookup_append_self (m : List (String × ThreadData)) (k : String)
    (v : ThreadData) (h : dictLookup m k = none) :
    dictLookup (m ++ [(k, v)]) k = some v := by
  induction m with
  | nil => simp [dictLookup]
  | cons p ps ih =>
    cases h1 : (p.1 == k) with
    | true => simp [dictLookup, h1] at h
    | false =>
      have h2 : dictLookup ps k = none := by
        simpa [dictLookup, h1] using h
      simpa [dictLookup, h1] using ih h2

/-- Helper: appending an entry for key `k` does not change lookups at other
keys. -/
theorem dictLookup_append_ne (m : List (String × ThreadData)) (k k2 : String)
    (v : ThreadData) (hne : k2 ≠ k) :
    dictLookup (m ++ [(k, v)]) k2 = dictLookup m k2 := by
  induction m with
  | nil => simp [dictLookup, beq_eq_false_iff_ne.mpr (fun h => hne h.symm)]
  | cons p ps ih =>
    cases h1 : (p.1 == k2) with
    | true => simp [dictLookup, h1]
    | false => simp [dictLookup, h1, ih]

/-- Helper: absence from the dict as a lookup. -/
theorem dictMem_false_iff (m : List (String × ThreadData)) (k : String) :
    dictMem m k = false ↔ dictLookup m k = none := by
  unfold dictMem
  cases h : dictLookup m k <;> simp [h]

/-- Helper: reading the upserted document through `threadOf`. -/
theorem threadOf_upsert (store : Store) (d : CosmosDoc) (t : String) :
    threadOf (upsert_item store d) d.id t
      = d.history.bind (fun h => dictLookup h t) := by
  unfold threadOf
  rw [read_item_upsert]
  dsimp only
  cases hh : d.history with
  | none => rfl
  | some h => rfl

/-- Helper: a document found under id `u` carries that id. -/
theorem read_item_id (store : Store) (u : String) (doc : CosmosDoc)
    (h : read_item store u = some doc) : doc.id = u := by
  induction store with
  | nil => simp [read_item] at h
  | cons x xs ih =>
    unfold read_item at h
    by_cases hx : (x.id == u) = true
    · rw [if_pos hx] at h
      injection h with h2
      rw [← h2]
      exact beq_iff_eq.mp hx
    · rw [if_neg hx] at h
      exact ih h

/-- Helper: the store `save_conversation` writes when no record exists. -/
theorem save_conversation_eq_none (store : Store) (u t um br now : String)
    (h : read_item store u = none) :
    save_conversation store u t um br now = some (upsert_item store
      { id := u,
        history := some (dictUpdate [(t, ⟨um, []⟩)] t
          (fun td => { td with chats := td.chats ++ [⟨um, br⟩] })),
        timestamp := some now }) := by
  unfold save_conversation
  rw [h]
  rfl

/-- Helper: the store `save_conversation` writes over an existing record with
a `history` field. -/
theorem save_conversation_eq_some (store : Store) (u t um br now : String)
    (doc : CosmosDoc) (hist : List (String × ThreadData))
    (hd : read_item store u = some doc) (hh : doc.history = some hist) :
    save_conversation store u t um br now = some (upsert_item store
      { doc with
        history := some (dictUpdate
          (if dictMem hist t then hist else hist ++ [(t, ⟨um, []⟩)]) t
          (fun td => { td with chats := td.chats ++ [⟨um, br⟩] })),
        timestamp := some now }) := by
  unfold save_conversation
  rw [hd]
  dsimp only
  rw [hh]

/-- C7 (confirmed): for `save_conversation` on a user record — a missing
record is treated as an empty history map rather than an error (the save
succeeds); the first call for a thread id sets the thread's heading to the
call's `user_message` and initialises its chats with just the new turn; a
later call for an existing thread leaves the heading unchanged and appends
exactly the one new turn at the end of the chats list, never removing or
reordering existing turns. -/
theorem save_conversation_behavior (store : Store) (u t um br now : String) :
    (read_item store u = none →
      (save_conversation store u t um br now).map (fun st => threadOf st u t)
        = some (some ⟨um, [⟨um, br⟩]⟩)) ∧
    (∀ doc hist, read_item store u = some doc → doc.history = some hist →
      dictLookup hist t = none →
      (save_conversation store u t um br now).map (fun st => threadOf st u t)
        = some (some ⟨um, [⟨um, br⟩]⟩)) ∧
    (∀ doc hist td, read_item store u = some doc → doc.history = some hist →
      dictLookup hist t = some td →
      (save_conversation store u t um br now).map (fun st => threadOf st u t)
        = some (some ⟨td.heading, td.chats ++ [⟨um, br⟩]⟩)) := by
  refine ⟨fun h => ?_, fun doc hist hd hh hl => ?_, fun doc hist td hd hh hl => ?_⟩
  · rw [save_conversation_eq_none store u t um br now h, Option.map_some']
    have h3 := threadOf_upsert store
      { id := u,
        history := some (dictUpdate [(t, ⟨um, []⟩)] t
          (fun td => { td with chats := td.chats ++ [⟨um, br⟩] })),
        timestamp := some now } t
    dsimp only at h3
    rw [h3]
    simp [dictLookup_update_self, dictLookup]
  · have hm : dictMem hist t = false := (dictMem_false_iff hist t).mpr hl
    have hid : doc.id = u := read_item_id store u doc hd
    rw [save_conversation_eq_some store u t um br now doc hist hd hh]
    rw [if_neg (by rw [hm]; exact Bool.false_ne_true)]
    rw [hid, Option.map_some']
    have h3 := threadOf_upsert store
      { doc with
        history := some (dictUpdate (hist ++ [(t, ⟨um, []⟩)]) t
          (fun td => { td with chats := td.chats ++ [⟨um, br⟩] })),
        timestamp := some now } t
    dsimp only at h3
    rw [hid] at h3
    rw [h3]
    simp [dictLookup_update_self, dictLookup_append_self hist t _ hl]
  · have hm : dictMem hist t = true := by
      unfold dictMem
      rw [hl]
      rfl
    have hid : doc.id = u := read_item_id store u doc hd
    rw [save_conversation_eq_some store u t um br now doc hist hd hh]
    rw [if_pos hm]
    rw [hid, Option.map_some']
    have h3 := threadOf_upsert store
      { doc with
        history := some (dictUpdate hist t
          (fun td => { td with chats := td.chats ++ [⟨um, br⟩] })),
        timestamp := some now } t
    dsimp only at h3
    rw [hid] at h3
    rw [h3]
    simp [dictLookup_update_self, hl]

/-- C7 witness: saving into the empty store (no record for the user) succeeds
and creates the thread with `heading = "hello"` and the single new turn. -/
theorem save_conversation_behavior_witness :
    (save_conversation [] "u1" "t1" "hello" "world" "2024").map
        (fun st => threadOf st "u1" "t1")
      = some (some ⟨"hello", [⟨"hello", "world"⟩]⟩) :=
  (save_conversation_behavior [] "u1" "t1" "hello" "world" "2024").1 rfl

/-- C10 (confirmed): `save_conversation` on an existing user record modifies
only the targeted thread and the record-level timestamp: every other thread
key keeps the same heading and chats (the same `dictLookup` result), the
record keeps id `u` and all its other fields, and every other document of the
store survives unchanged. -/
theorem save_conversation_frame (store : Store) (u t um br now : String)
    (doc : CosmosDoc) (hist : List (String × ThreadData)) (st : Store)
    (hd : read_item store u = some doc) (hh : doc.history = some hist)
    (hs : save_conversation store u t um br now = some st) :
    ∃ doc2 hist2, read_item st u = some doc2 ∧ doc2.id = u ∧
      doc2.history = some hist2 ∧
      (∀ t2, t2 ≠ t → dictLookup hist2 t2 = dictLookup hist t2) ∧
      doc2.user_id = doc.user_id ∧ doc2.thread_id = doc.thread_id ∧
      doc2.user_message = doc.user_message ∧ doc2.bot_response = doc.bot_response ∧
      doc2.timestamp = some now ∧
      (∀ e ∈ store, e.id ≠ u → e ∈ st) := by
  have hid : doc.id = u := read_item_id store u doc hd
  rw [save_conversation_eq_some store u t um br now doc hist hd hh] at hs
  injection hs with hs2
  subst hs2
  refine ⟨{ doc with
        history := some (dictUpdate
          (if dictMem hist t then hist else hist ++ [(t, ⟨um, []⟩)]) t
          (fun td => { td with chats := td.chats ++ [⟨um, br⟩] })),
        timestamp := some now },
      dictUpdate (if dictMem hist t then hist else hist ++ [(t, ⟨um, []⟩)]) t
        (fun td => { td with chats := td.chats ++ [⟨um, br⟩] }),
      ?_, ?_, rfl, ?_, rfl, rfl, rfl, rfl, rfl, ?_⟩
  · have hru := read_item_upsert store
      { doc with
        history := some (dictUpdate
          (if dictMem hist t then hist else hist ++ [(t, ⟨um, []⟩)]) t
          (fun td => { td with chats := td.chats ++ [⟨um, br⟩] })),
        timestamp := some now }
    rw [hid]
    dsimp only at hru
    rw [hid] at hru
    exact hru
  · exact hid
  · intro t2 hne
    rw [dictLookup_update_ne _ t t2 _ hne]
    by_cases hm : dictMem hist t = true
    · rw [if_pos hm]
    · rw [if_neg hm, dictLookup_append_ne hist t t2 _ hne]
  · intro e he hne
    refine mem_upsert_of_ne store _ e he ?_
    dsimp only
    rw [hid]
    exact hne

/-- C10 witness: saving a turn into thread `t1` of the nested demo store
leaves thread `t2`, the record id and the untouched fields unchanged. -/
theorem save_conversation_frame_witness :
    ∃ doc2 hist2, read_item storeNestedSaved "u1" = some doc2 ∧ doc2.id = "u1" ∧
      doc2.history = some hist2 ∧
      (∀ t2, t2 ≠ "t1" → dictLookup hist2 t2 = dictLookup nestedHist t2) ∧
      doc2.user_id = nestedDoc.user_id ∧ doc2.thread_id = nestedDoc.thread_id ∧
      doc2.user_message = nestedDoc.user_message ∧
      doc2.bot_response = nestedDoc.bot_response ∧
      doc2.timestamp = some "2024-02-02" ∧
      (∀ e ∈ storeNested, e.id ≠ "u1" → e ∈ storeNestedSaved) :=
  save_conversation_frame storeNested "u1" "t1" "new q" "new a" "2024-02-02"
    nestedDoc nestedHist storeNestedSaved (by decide) (by decide) (by decide)

/-- Helper: `String.append` is list append on the character data. -/
theorem data_append (a b : String) : (a ++ b).data = a.data ++ b.data := rfl

/-- Helper: `pyJoin` at the character level. -/
theorem pyJoin_data (sep : String) : ∀ xs : List String,
    (pyJoin sep xs).data = joinSepL sep.data (xs.map String.data)
  | [] => rfl
  | [x] => rfl
  | x :: y :: ys => by
    show (x ++ sep ++ pyJoin sep (y :: ys)).data = _
    rw [data_append, data_append, pyJoin_data sep (y :: ys)]
    rfl

/-- Helper: `splitLines` always yields at least one part. -/
theorem splitLines_ne_nil : ∀ l : List Char, splitLines l ≠ []
  | [] => by simp [splitLines]
  | c :: cs => by
    unfold splitLines
    cases h : splitLines cs with
    | nil => simp
    | cons r rs => by_cases hc : c = '\n' <;> simp [hc]

/-- Helper: a newline-free list is one line. -/
theorem splitLines_no_nl : ∀ l : List Char, '\n' ∉ l → splitLines l = [l]
  | [], _ => rfl
  | c :: cs, hl => by
    have hc : c ≠ '\n' := fun e => hl (e ▸ List.mem_cons_self c cs)
    have hcs : '\n' ∉ cs := fun m => hl (List.mem_cons_of_mem c m)
    unfold splitLines
    rw [splitLines_no_nl cs hcs]
    simp [hc]

/-- Helper: `splitLines` peels one newline-free line off the front. -/
theorem splitLines_append : ∀ x : List Char, ∀ r : List Char, '\n' ∉ x →
    splitLines (x ++ '\n' :: r) = x :: splitLines r
  | [], r, _ => by
    show splitLines ('\n' :: r) = [] :: splitLines r
    rw [splitLines]
    cases h : splitLines r with
    | nil => exact absurd h (splitLines_ne_nil r)
    | cons a as => simp
  | c :: cx, r, hx => by
    have hc : c ≠ '\n' := fun e => hx (e ▸ List.mem_cons_self c cx)
    have hcx : '\n' ∉ cx := fun m => hx (List.mem_cons_of_mem c m)
    show splitLines (c :: (cx ++ '\n' :: r)) = (c :: cx) :: splitLines r
    rw [splitLines, splitLines_append cx r hcx]
    simp [hc]

/-- Helper: splitting the newline-join of newline-free lines recovers them. -/
theorem splitLines_joinSepL : ∀ ls : List (List Char), ls ≠ [] →
    (∀ l ∈ ls, '\n' ∉ l) → splitLines (joinSepL ['\n'] ls) = ls
  | [], h, _ => absurd rfl h
  | [x], _, hn => by
    show splitLines x = [x]
    exact splitLines_no_nl x (hn x (by simp))
  | x :: y :: ys, _, hn => by
    show splitLines (x ++ ['\n'] ++ joinSepL ['\n'] (y :: ys)) = _
    have hre : x ++ ['\n'] ++ joinSepL ['\n'] (y :: ys)
        = x ++ '\n' :: joinSepL ['\n'] (y :: ys) := by simp
    rw [hre, splitLines_append x _ (hn x (by simp))]
    rw [splitLines_joinSepL (y :: ys) (by simp)
      (fun l hl => hn l (List.mem_cons_of_mem x hl))]

/-- Helper: the join of a nonempty first line is nonempty. -/
theorem joinSepL_cons_ne_nil (sep x : List Char) (xs : List (List Char))
    (hx : x ≠ []) : joinSepL sep (x :: xs) ≠ [] := by
  cases xs with
  | nil => simpa [joinSepL] using hx
  | cons y ys => simp [joinSepL, hx]

/-- Helper: dropping a prefix that is there. -/
theorem dropPrefixQ_append : ∀ sep b : List Char, dropPrefixQ sep (sep ++ b) = some b
  | [], _ => rfl
  | a :: as, b => by simp [dropPrefixQ, dropPrefixQ_append as b]

/-- Helper: `splitFirst` cuts at the separator when the text before it does
not contain the separator's first character. -/
theorem splitFirst_exact (s0 : Char) (ss b : List Char) : ∀ a : List Char, s0 ∉ a →
    splitFirst (s0 :: ss) (a ++ (s0 :: ss) ++ b) = some (a, b)
  | [], _ => by
    show splitFirst (s0 :: ss) (s0 :: (ss ++ b)) = some ([], b)
    unfold splitFirst
    rw [show dropPrefixQ (s0 :: ss) (s0 :: (ss ++ b)) = some b from by
      simpa [dropPrefixQ] using dropPrefixQ_append ss b]
  | x :: a2, ha => by
    have hxs : s0 ≠ x := fun e => ha (e ▸ List.mem_cons_self x a2)
    have ha2 : s0 ∉ a2 := fun m => ha (List.mem_cons_of_mem x m)
    show splitFirst (s0 :: ss) (x :: (a2 ++ (s0 :: ss) ++ b)) = some (x :: a2, b)
    unfold splitFirst
    rw [show dropPrefixQ (s0 :: ss) (x :: (a2 ++ (s0 :: ss) ++ b)) = none from by
      simp [dropPrefixQ, hxs]]
    rw [splitFirst_exact s0 ss b a2 ha2]

/-- Helper: a formatted line parses back to its hit's triple when the doc
label contains no space and the page label no colon. -/
theorem parseLine_hitLine (h : SearchHit)
    (hdr : ' ' ∉ h.doc_ref.data) (hpn : ':' ∉ h.page_number.data) :
    parseLine (hitLine h).data = some (hitTriple h) := by
  have hd : (hitLine h).data
      = h.doc_ref.data ++ (' ' :: ['p', 'a', 'g', 'e', ' ']) ++
        (h.page_number.data ++ (':' :: [' ']) ++ h.page_content.data) := by
    show (h.doc_ref ++ " page " ++ h.page_number ++ ": " ++ h.page_content).data = _
    simp [data_append, List.append_assoc,
      show (" page ").data = [' ', 'p', 'a', 'g', 'e', ' '] from rfl,
      show (": ").data = [':', ' '] from rfl]
  unfold parseLine
  rw [hd]
  rw [show (" page ").data = ' ' :: ['p', 'a', 'g', 'e', ' '] from rfl]
  rw [splitFirst_exact ' ' ['p', 'a', 'g', 'e', ' ']
    (h.page_number.data ++ (':' :: [' ']) ++ h.page_content.data) h.doc_ref.data hdr]
  dsimp only
  rw [splitFirst_exact ':' [' '] h.page_content.data h.page_number.data hpn]
  rfl

/-- Helper: a formatted line contains no newline when its three fields have
none. -/
theorem hitLine_no_nl (h : SearchHit) (h1 : '\n' ∉ h.doc_ref.data)
    (h2 : '\n' ∉ h.page_number.data) (h3 : '\n' ∉ h.page_content.data) :
    '\n' ∉ (hitLine h).data := by
  have hsep1 : '\n' ∉ (" page ").data := by decide
  have hsep2 : '\n' ∉ (": ").data := by decide
  show '\n' ∉ (h.doc_ref ++ " page " ++ h.page_number ++ ": " ++ h.page_content).data
  simp only [data_append, List.mem_append, not_or]
  exact ⟨⟨⟨⟨h1, hsep1⟩, h2⟩, hsep2⟩, h3⟩

/-- Helper: a formatted line is never the empty character list. -/
theorem hitLine_data_ne_nil (h : SearchHit) : (hitLine h).data ≠ [] := by
  intro he
  rw [show hitLine h = h.doc_ref ++ " page " ++ h.page_number ++ ": " ++ h.page_content
    from rfl] at he
  simp [data_append, List.append_eq_nil,
    show (" page ").data = [' ', 'p', 'a', 'g', 'e', ' '] from rfl] at he

/-- Helper: parsing every formatted line of a hit list recovers the triples. -/
theorem mapM_parseLine_map : ∀ hits : List SearchHit,
    (∀ h ∈ hits, ' ' ∉ h.doc_ref.data) → (∀ h ∈ hits, ':' ∉ h.page_number.data) →
    (hits.map (fun h => (hitLine h).data)).mapM parseLine = some (hits.map hitTriple)
  | [], _, _ => rfl
  | h0 :: rest, hdr, hpn => by
    have hr := mapM_parseLine_map rest
      (fun h hh => hdr h (List.mem_cons_of_mem h0 hh))
      (fun h hh => hpn h (List.mem_cons_of_mem h0 hh))
    have h0p := parseLine_hitLine h0 (hdr h0 (List.mem_cons_self h0 rest))
      (hpn h0 (List.mem_cons_self h0 rest))
    simp only [List.map_cons, List.mapM_cons, h0p, hr]
    rfl

/-- C3 (corrected, amended claim): for hits whose doc label has no space and
no newline, whose page label has no colon and no newline, and whose page
content has no newline, parsing the `format_search_content` output back
(splitting on newlines and on the `"<docRef> page <pageNumber>: <pageContent>"`
pattern) recovers exactly the `(doc_ref, page_number, page_content)` triples
in input order.  The live labels `[docN]`/`Page_N` satisfy the conditions;
without them the round trip fails (see the counterexample). -/
theorem format_search_content_roundtrip (hits : List SearchHit)
    (hdr : ∀ h ∈ hits, ' ' ∉ h.doc_ref.data ∧ '\n' ∉ h.doc_ref.data)
    (hpn : ∀ h ∈ hits, ':' ∉ h.page_number.data ∧ '\n' ∉ h.page_number.data)
    (hpc : ∀ h ∈ hits, '\n' ∉ h.page_content.data) :
    parse_search_content (format_search_content hits) = some (hits.map hitTriple) := by
  cases hits with
  | nil => rfl
  | cons h0 rest =>
    have hlines : ∀ l ∈ (h0 :: rest).map (fun h => (hitLine h).data), '\n' ∉ l := by
      intro l hl
      rcases List.mem_map.mp hl with ⟨h, hh, rfl⟩
      exact hitLine_no_nl h (hdr h hh).2 (hpn h hh).2 (hpc h hh)
    have hdata : (format_search_content (h0 :: rest)).data
        = joinSepL ['\n'] ((h0 :: rest).map (fun h => (hitLine h).data)) := by
      unfold format_search_content
      rw [pyJoin_data, List.map_map]
      rfl
    have hne : format_search_content (h0 :: rest) ≠ "" := by
      intro he
      have h2 : (format_search_content (h0 :: rest)).data = [] := by rw [he]
      rw [hdata, List.map_cons] at h2
      exact joinSepL_cons_ne_nil ['\n'] (hitLine h0).data _ (hitLine_data_ne_nil h0) h2
    unfold parse_search_content
    rw [if_neg hne, hdata]
    rw [splitLines_joinSepL _ (by simp) hlines]
    exact mapM_parseLine_map (h0 :: rest)
      (fun h hh => (hdr h hh).1) (fun h hh => (hpn h hh).1)

/-- C3 witness: two live-shaped hits round-trip to their own triples. -/
theorem format_search_content_roundtrip_witness :
    parse_search_content (format_search_content cleanHits)
      = some (cleanHits.map hitTriple) :=
  format_search_content_roundtrip cleanHits (by decide) (by decide) (by decide)

/-- C3 counterexample: the round trip as claimed fails for arbitrary hits — a
newline inside `page_content` breaks the line split; a space inside `doc_ref`
moves the first `" page "` occurrence; a `": "` inside `page_number` moves the
first `": "` occurrence. -/
theorem format_roundtrip_fails :
    parse_search_content (format_search_content
        [⟨"[doc1]", "Page_1", "line1\nline2", 0.0, "p"⟩])
      ≠ some [("[doc1]", "Page_1", "line1\nline2")] ∧
    parse_search_content (format_search_content [⟨"x page", "P", "c", 0.0, "p"⟩])
      ≠ some [("x page", "P", "c")] ∧
    parse_search_content (format_search_content [⟨"[doc1]", "P: 1", "c", 0.0, "p"⟩])
      ≠ some [("[doc1]", "P: 1", "c")] := by
  refine ⟨by decide, by decide, by decide⟩

end AzureGpt
